import Mathlib

/-!
A verification development for the browser-automation service
(`browser_api.py`, `agent_runner.py`, `agent_setup.py`, `result_processing.py`,
`utils.py`, `models.py`).  The Python sources are shallowly embedded as
executable Lean definitions: machine floats for wall-clock durations and
monetary cost are modelled as rationals, Python exceptions as `Except`,
`None`-able values as `Option`, dictionaries/registries as functions to
`Option`, and the filesystem effects of the download reconciler as explicit
state threading.  The queries made against the external browser-use history
object are modelled as `Except`-valued fields of a `History` record, so that
a query that "raises" is a first-class input.
-/

set_option maxHeartbeats 1000000

namespace BrowserAutomation

/-! ## String helpers

Python's `in` operator on strings (contiguous substring test), `str.lower`,
and slicing `s[:n]` are modelled over the character lists of Lean strings. -/

/-- Character-list version of Python string containment: `startsWithL p l`
holds when `p` is an element-wise prefix of `l`. -/
def startsWithL : List Char → List Char → Bool
  | [], _ => true
  | _ :: _, [] => false
  | a :: as, b :: bs => a = b && startsWithL as bs

/-- `subListL needle hay` is Python's `needle in hay` on strings: `needle`
occurs as a contiguous substring of `hay`. -/
def subListL (needle : List Char) : List Char → Bool
  | [] => needle.isEmpty
  | c :: cs => startsWithL needle (c :: cs) || subListL needle cs

/-- Python `str.lower`, applied character-wise. -/
def lowerString (s : String) : String := ⟨s.data.map Char.toLower⟩

/-- Python slicing `s[:n]` on strings (first `n` characters). -/
def pyTake (s : String) (n : Nat) : String := ⟨s.data.take n⟩

/-- Python `"sep".join(items)`. -/
def pyJoin (sep : String) (items : List String) : String :=
  match items with
  | [] => ""
  | x :: xs => xs.foldl (fun acc s => acc ++ sep ++ s) x

/-! ## utils.py -/

/-- Substring indicators of `is_empty_json_error` (utils.py lines 26-32). -/
def empty_json_indicators : List String :=
  ["EOF while parsing", "Invalid JSON", "input_value=''", "Expecting value",
   "No JSON object could be decoded"]

/-- `is_empty_json_error` (utils.py lines 21-35): an empty message is not an
error indicator; otherwise any of the (lower-cased) indicator substrings in
the lower-cased message counts. -/
def is_empty_json_error (error_message : String) : Bool :=
  if error_message = "" then false
  else empty_json_indicators.any fun ind =>
    subListL (lowerString ind).data (lowerString error_message).data

/-- Substring indicators of `is_rate_limit_error` (utils.py lines 43-49). -/
def rate_limit_indicators : List String :=
  ["rate limit", "rate_limit_exceeded", "quota exceeded", "too many requests",
   "429"]

/-- `is_rate_limit_error` (utils.py lines 38-52): an empty message is not a
rate-limit indicator; otherwise any of the indicator substrings in the
lower-cased message counts. -/
def is_rate_limit_error (error_message : String) : Bool :=
  if error_message = "" then false
  else rate_limit_indicators.any fun ind =>
    subListL ind.data (lowerString error_message).data

/-- `format_openai_error_message` (utils.py lines 55-88): tailored guidance
for OpenAI failures, with the original error truncated to 100 resp. 200
characters exactly as in the Python slices. -/
def format_openai_error_message (original_error : String) (error_type : String) :
    String :=
  let pair : String × List String :=
    if error_type = "empty_json" then
      ("OpenAI returned an empty or malformed response. This is usually a transient issue.",
       ["Retry the task (very likely to succeed)",
        "Check OpenAI status page for outages",
        "Ensure your API key has remaining quota"])
    else if error_type = "rate_limit" then
      ("OpenAI API rate limit reached. Your account exceeded the allowed requests.",
       ["Wait a few minutes and retry",
        "Upgrade the OpenAI plan for higher limits",
        "Switch to Gemini (no rate limits on free tier)"])
    else
      ("OpenAI error: " ++ pyTake original_error 100,
       ["Retry the task",
        "Try a different OpenAI model",
        "Check OpenAI status page for outages"])
  let formatted := pair.1 ++ "\n\nSuggestions:\n" ++
    pyJoin "\n" (pair.2.map fun tip => "  - " ++ tip)
  if original_error ≠ "" then
    formatted ++ "\n\nOriginal error: " ++ pyTake original_error 200
  else formatted

/-! ## models.py -/

/-- The fields of `TaskRequest` (models.py lines 8-112) that the task
lifecycle and result pipeline consume.  `timeout` is an integer number of
seconds as in the pydantic model. -/
structure TaskRequest where
  task : String
  task_id : Option String := none
  llm_provider : String := "gemini"
  llm_model : Option String := none
  max_steps : Nat := 100
  generate_gif : Bool := false
  timeout : Nat := 900
  calculate_cost : Bool := true
  debug_mode : Bool := false
  save_conversation : Bool := false
  customer_id : Option Nat := none
  session_enabled : Bool := true
  deriving Repr, DecidableEq

/-- Per-step model reasoning entry built by `extract_debug_data`
(result_processing.py lines 192-201): 1-based step index and the rendered
thought text. -/
structure ModelThought where
  step : Nat
  thought : String
  deriving Repr, DecidableEq

/-- The `performance` sub-dictionary of the debug bundle
(result_processing.py lines 208-213). -/
structure Performance where
  total_duration : ℚ
  steps : Nat
  urls_visited : Nat
  has_errors : Bool
  deriving Repr, DecidableEq

/-- The debug bundle assembled by `extract_debug_data`
(result_processing.py lines 169-215). -/
structure DebugData where
  extracted_content : List String
  model_thoughts : List ModelThought
  performance : Performance
  deriving Repr, DecidableEq

/-- `TaskResponse` (models.py lines 115-136) with its pydantic defaults.
Durations and cost are rationals standing in for floats. -/
structure TaskResponse where
  task_id : String
  success : Bool
  result : Option String := none
  final_url : Option String := none
  urls_visited : List String := []
  steps_taken : Nat := 0
  execution_time : ℚ := 0
  gif_path : Option String := none
  error : Option String := none
  judge_verdict : Option String := none
  cost : Option ℚ := none
  cost_currency : String := "USD"
  llm_calls : Nat := 0
  debug_data : Option DebugData := none
  conversation_path : Option String := none
  downloaded_files : List String := []
  deriving Repr, DecidableEq

/-! ## result_processing.py -/

/-- The judgement dictionary consumed by `format_judge_verdict`
(result_processing.py lines 227-249): a truthy/falsy verdict, optional
reasoning and failure-reason text, and two boolean flags. -/
structure Judgement where
  verdict : Bool
  reasoning : Option String := none
  failure_reason : Option String := none
  impossible_task : Bool := false
  reached_captcha : Bool := false
  deriving Repr, DecidableEq

/-- `format_judge_verdict` (result_processing.py lines 227-249): renders the
judgement as a fixed multi-line text with a pass/fail header. -/
def format_judge_verdict (j : Judgement) : String :=
  let verdict_emoji := if j.verdict then "✅" else "❌"
  let verdict_status := if j.verdict then "PASS" else "FAIL"
  let parts := ["⚖️  Judge Verdict: " ++ verdict_emoji ++ " " ++ verdict_status]
  let parts := parts ++ (match j.reasoning with
    | some r => ["Reasoning: " ++ r]
    | none => [])
  let parts := parts ++ (match j.failure_reason with
    | some fr => ["Failure Reason: " ++ fr]
    | none => [])
  let parts := parts ++ (if j.impossible_task then ["⚠️ Task was impossible to complete"] else [])
  let parts := parts ++ (if j.reached_captcha then ["🤖 Encountered CAPTCHA"] else [])
  pyJoin "\n" parts

/-- The `history.usage` record read by `extract_cost_data`
(result_processing.py lines 131-150).  Each `Option` field models a Python
attribute that may be absent (`hasattr` false). -/
structure Usage where
  total_cost : Option ℚ := none
  cost : Option ℚ := none
  input_tokens : Option Nat := none
  output_tokens : Option Nat := none
  deriving Repr, DecidableEq

/-- The external browser-use execution history, as seen through the queries
the result pipeline makes against it.  Every query is `Except`-valued: an
`Except.error` models the query raising a Python exception.  `errorsQ`
returns a list of possibly-`None` entries, matching the
`[str(e) for e in history.errors() if e]` filter.  `judgementQ = .ok none`
models `hasattr(history, "judgement")` being false or the judgement being
falsy; `usageQ = .ok none` models `history.usage` absent or falsy. -/
structure History where
  errorsQ : Except String (List (Option String)) := .ok []
  finalResultQ : Except String (Option String) := .ok none
  isDoneQ : Except String Bool := .ok false
  isSuccessfulQ : Except String (Option Bool) := .ok none
  hasErrorsQ : Except String Bool := .ok false
  urlsQ : Except String (List String) := .ok []
  stepsQ : Except String Nat := .ok 0
  durationQ : Except String ℚ := .ok 0
  judgementQ : Except String (Option Judgement) := .ok none
  extractedContentQ : Except String (List String) := .ok []
  modelThoughtsQ : Except String (List String) := .ok []
  usageQ : Except String (Option Usage) := .ok none

/-- The Python list comprehension `[str(e) for e in history.errors() if e]`
(result_processing.py line 75): drops `None` entries and empty strings. -/
def cleanErrors (raw : List (Option String)) : List String :=
  raw.filterMap fun o => match o with
    | none => none
    | some s => if s = "" then none else some s

/-- The provider-gated error classification of `extract_basic_results`
(result_processing.py lines 77-83): the pair
`(openai_empty_json, openai_rate_limit)`, computed only when the error list
is non-empty and the provider is `"openai"`. -/
def classifyErrors (req : TaskRequest) (errors : List String) : Bool × Bool :=
  if errors ≠ [] then
    if req.llm_provider = "openai" then
      (errors.any is_empty_json_error, errors.any is_rate_limit_error)
    else (false, false)
  else (false, false)

/-- The dictionary built by `extract_basic_results`
(result_processing.py lines 73-121).  `gif_path` is present only when
requested and generated (lines 118-119). -/
structure BasicResult where
  final_result : Option String
  is_done : Bool
  is_successful : Option Bool
  has_errors : Bool
  urls : List String
  steps : Nat
  duration : ℚ
  errors : List String
  openai_empty_json : Bool
  openai_rate_limit : Bool
  judge_verdict : Option String
  gif_path : Option String
  deriving Repr, DecidableEq

/-- The judge-verdict extraction of `extract_basic_results`
(result_processing.py lines 98-115): the query raising, the attribute being
absent, and a falsy judgement all leave the verdict at `None`; otherwise the
judgement is formatted. -/
def judgeVerdictOf (h : History) : Option String :=
  match h.judgementQ with
  | .error _ => none
  | .ok none => none
  | .ok (some j) => some (format_judge_verdict j)

/-- `extract_basic_results` (result_processing.py lines 73-121).  The raw
queries are made in source order; only the judge-verdict extraction is
wrapped in fault containment (the `try`/`except` at lines 100-113), so an
error from any other query propagates. -/
def extract_basic_results (h : History) (req : TaskRequest)
    (gif_path : Option String) : Except String BasicResult := do
  let raw ← h.errorsQ
  let errors := cleanErrors raw
  let flags := classifyErrors req errors
  let fr ← h.finalResultQ
  let isd ← h.isDoneQ
  let iss ← h.isSuccessfulQ
  let he ← h.hasErrorsQ
  let urls ← h.urlsQ
  let steps ← h.stepsQ
  let dur ← h.durationQ
  let jv := judgeVerdictOf h
  let gif := if req.generate_gif then gif_path else none
  return { final_result := fr, is_done := isd, is_successful := iss,
           has_errors := he, urls := urls, steps := steps, duration := dur,
           errors := errors, openai_empty_json := flags.1,
           openai_rate_limit := flags.2, judge_verdict := jv, gif_path := gif }

/-- The dictionary built by `extract_cost_data`
(result_processing.py lines 124-166).  Each field is `Option`al because the
Python dict may lack the corresponding key. -/
structure CostData where
  cost : Option ℚ
  cost_currency : Option String
  llm_calls : Option Nat
  deriving Repr, DecidableEq

/-- The usage-present body of `extract_cost_data`
(result_processing.py lines 131-150): the direct cost (and currency) from
`total_cost`, else from `cost`; `llm_calls = 1` when both token counters are
present. -/
def costFromUsage (u : Usage) : CostData :=
  let base : CostData := ⟨none, none, none⟩
  let base := match u.total_cost with
    | some c => { base with cost := some c, cost_currency := some "USD" }
    | none => match u.cost with
      | some c => { base with cost := some c, cost_currency := some "USD" }
      | none => base
  if u.input_tokens.isSome && u.output_tokens.isSome then
    { base with llm_calls := some 1 }
  else base

/-- `extract_cost_data` (result_processing.py lines 124-166).  With cost
calculation disabled the result is `cost = None`, `llm_calls = 0`
(lines 162-164).  Otherwise the `try` body reads `history.usage`; if no
direct cost was found the fallback (lines 152-156) sets `cost = None` and
`llm_calls` to the step count.  An exception anywhere in the body is caught
(lines 158-161) and produces the same degraded pair — except that the
`history.number_of_steps()` call made inside the handler can itself raise,
which propagates. -/
def extract_cost_data (h : History) (req : TaskRequest) :
    Except String CostData :=
  if req.calculate_cost then
    match h.usageQ with
    | .error _ =>
        match h.stepsQ with
        | .ok s => .ok ⟨none, none, some s⟩
        | .error e => .error e
    | .ok usageOpt =>
        let cd := match usageOpt with
          | some u => costFromUsage u
          | none => ⟨none, none, none⟩
        if cd.cost = none then
          match h.stepsQ with
          | .ok s => .ok { cd with cost := none, llm_calls := some s }
          | .error _ =>
              match h.stepsQ with
              | .ok s => .ok ⟨none, none, some s⟩
              | .error e => .error e
        else .ok cd
  else .ok ⟨none, none, some 0⟩

/-- `extract_debug_data` (result_processing.py lines 169-215).  With
`debug_mode` off the bundle is entirely absent (line 171-172).  Content and
model-thought extraction are individually fault-contained (lines 178-205)
and degrade to empty lists; the performance queries (lines 208-213) are not
wrapped, so their errors propagate in source order. -/
def extract_debug_data (h : History) (req : TaskRequest) :
    Except String (Option DebugData) :=
  if !req.debug_mode then .ok none
  else
    let content := match h.extractedContentQ with
      | .ok l => l
      | .error _ => []
    let thoughts := match h.modelThoughtsQ with
      | .ok l => l.enum.map fun p => ⟨p.1 + 1, p.2⟩
      | .error _ => []
    match h.durationQ with
    | .error e => .error e
    | .ok d =>
      match h.stepsQ with
      | .error e => .error e
      | .ok s =>
        match h.urlsQ with
        | .error e => .error e
        | .ok us =>
          match h.hasErrorsQ with
          | .error e => .error e
          | .ok he => .ok (some ⟨content, thoughts, ⟨d, s, us.length, he⟩⟩)

/-- The merged result dictionary produced by `assemble_final_result`
(result_processing.py lines 218-224): the keys of the three partial
dictionaries are disjoint, so the merge is a plain combination. -/
structure FinalResult where
  final_result : Option String
  is_done : Bool
  is_successful : Option Bool
  has_errors : Bool
  urls : List String
  steps : Nat
  duration : ℚ
  errors : List String
  openai_empty_json : Bool
  openai_rate_limit : Bool
  judge_verdict : Option String
  gif_path : Option String
  cost : Option ℚ
  cost_currency : Option String
  llm_calls : Option Nat
  debug_data : Option DebugData
  downloaded_files : List String
  conversation_path : Option String
  deriving Repr, DecidableEq

/-- `assemble_final_result` (result_processing.py lines 218-224). -/
def assemble_final_result (basic : BasicResult) (cost : CostData)
    (debug : Option DebugData) (downloaded_files : List String)
    (conversation_path : Option String) : FinalResult :=
  { final_result := basic.final_result, is_done := basic.is_done,
    is_successful := basic.is_successful, has_errors := basic.has_errors,
    urls := basic.urls, steps := basic.steps, duration := basic.duration,
    errors := basic.errors, openai_empty_json := basic.openai_empty_json,
    openai_rate_limit := basic.openai_rate_limit,
    judge_verdict := basic.judge_verdict, gif_path := basic.gif_path,
    cost := cost.cost, cost_currency := cost.cost_currency,
    llm_calls := cost.llm_calls, debug_data := debug,
    downloaded_files := downloaded_files,
    conversation_path := conversation_path }

/-! ### handle_downloads (result_processing.py lines 14-70)

The filesystem is modelled explicitly: each scratch directory
(`/tmp/browser_use_agent_*/browseruse_agent_data`) is a list of regular
file names, paired per file with a flag saying whether `shutil.move` fails
on it; the target download directory is the list of file names it contains.
`download_dir` always lives under the well-known root
`/home/browseruser/Downloads` (see `setup_directories`), so it is given by
its path `relDir` relative to that root, and
`dest_file.relative_to("/home/browseruser/Downloads")` is `relDir ++ "/" ++`
the destination file name. -/

/-- The index of the last `.` in a file name, as found by CPython's
`name.rfind('.')` used by `PurePath.stem`/`suffix`. -/
def rfindDot (cs : List Char) : Option Nat :=
  ((cs.enum.filter fun p => p.2 = '.').map fun p => p.1).getLast?

/-- `pathlib.PurePath.stem` and `.suffix` for a plain file name: split at the
last dot when that dot is neither leading nor trailing, else no suffix. -/
def pathStemSuffix (n : String) : String × String :=
  match rfindDot n.data with
  | some i =>
      if 0 < i ∧ i < n.data.length - 1 then (⟨n.data.take i⟩, ⟨n.data.drop i⟩)
      else (n, "")
  | none => (n, "")

/-- The collision-renamed destination name (result_processing.py
lines 41-45): the timestamp is appended to the stem, before the
extension. -/
def timestampedName (n : String) (timestamp : String) : String :=
  (pathStemSuffix n).1 ++ "_" ++ timestamp ++ (pathStemSuffix n).2

/-- One scratch directory found under `/tmp`: its regular files, each with a
move-failure flag, and whether `shutil.rmtree` on the directory fails. -/
structure ScratchDir where
  files : List (String × Bool)
  rmFails : Bool := false

/-- The reconciliation outcome: final contents of the target directory, the
returned list of root-relative moved paths, and the scratch directories that
still exist afterwards (with whatever files were left in them). -/
structure DState where
  target : List String
  moved : List String
  remaining : List (List String)
  deriving Repr, DecidableEq

/-- The per-file body of `handle_downloads` (result_processing.py
lines 34-57), threading `(target contents, moved list, leftover files)`:
the collision check `dest_file.exists()` consults the target directory as
it stands when the file is processed; a failing move leaves the file in the
scratch directory and continues with the remaining files. -/
def processFile (relDir timestamp : String)
    (acc : List String × List String × List String) (f : String × Bool) :
    List String × List String × List String :=
  let dest := if f.1 ∈ acc.1 then timestampedName f.1 timestamp else f.1
  if f.2 then (acc.1, acc.2.1, acc.2.2 ++ [f.1])
  else (acc.1 ++ [dest], acc.2.1 ++ [relDir ++ "/" ++ dest], acc.2.2)

/-- The per-directory body of `handle_downloads` (result_processing.py
lines 27-64): process every file, then remove the scratch directory
(lines 59-64); a failing `rmtree` leaves the directory (and its leftover
files) in place but is non-fatal. -/
def processDir (relDir timestamp : String) (st : DState) (d : ScratchDir) :
    DState :=
  let acc := d.files.foldl (processFile relDir timestamp)
    (st.target, st.moved, [])
  { target := acc.1, moved := acc.2.1,
    remaining := st.remaining ++ (if d.rmFails then [acc.2.2] else []) }

/-- `handle_downloads` (result_processing.py lines 14-70) over the explicit
filesystem model: fold the per-directory body over the scratch directories
found in `/tmp`; with no scratch directory the result is the unchanged
target and an empty moved list. -/
def handle_downloads (dirs : List ScratchDir) (target : List String)
    (relDir timestamp : String) : DState :=
  dirs.foldl (processDir relDir timestamp) ⟨target, [], []⟩

/-! ## agent_runner.py / agent_setup.py — session storage -/

/-- A live page of the running browser: its origin and its per-origin
session storage, as an ordered key/value list (the order in which the
export script's `sessionStorage.key(i)` loop enumerates entries). -/
structure Page where
  origin : String
  storage : List (String × String)
  deriving Repr, DecidableEq

/-- The JSON document written by `export_session_storage`
(agent_runner.py lines 28-49): `{origin, data}`. -/
structure SessionSnapshot where
  origin : String
  data : List (String × String)
  deriving Repr, DecidableEq

/-- `export_session_storage` (agent_runner.py lines 17-55): evaluates the
in-page script that enumerates all sessionStorage entries of the current
page and serialises `{origin, data}`; with no active page nothing is
written. -/
def export_session_storage (currentPage : Option Page) :
    Option SessionSnapshot :=
  currentPage.map fun p => ⟨p.origin, p.storage⟩

/-- `window.sessionStorage.setItem key value`: replaces the value of an
existing key in place, else appends the new entry. -/
def setItem (store : List (String × String)) (kv : String × String) :
    List (String × String) :=
  if store.any fun e => e.1 = kv.1 then
    store.map fun e => if e.1 = kv.1 then (e.1, kv.2) else e
  else store ++ [kv]

/-- The origin-gated injection script prepared by `restore_session_storage`
(agent_setup.py lines 156-167), as its effect on a page it runs in: only
when the live page's origin equals the recorded origin are the recorded
entries written, in order, via `setItem`; otherwise the page is untouched. -/
def restoreScript (snap : SessionSnapshot) (p : Page) : Page :=
  if p.origin = snap.origin then
    { p with storage := snap.data.foldl setItem p.storage }
  else p

/-- `restore_session_storage` (agent_setup.py lines 131-174) as its effect
on a page the injected script later runs in: a missing snapshot file or an
empty `data` mapping is a no-op (lines 133-135 and 150-152); otherwise the
origin-gated script applies. -/
def restore_session_storage (file : Option SessionSnapshot) (p : Page) :
    Page :=
  match file with
  | none => p
  | some snap => if snap.data.isEmpty then p else restoreScript snap p

/-! ## agent_runner.py — run_agent_task control flow

`run_agent_task` (agent_runner.py lines 58-123) is modelled as the ordered
trace of the lifecycle events it performs on the browser resource, driven
by which of its fallible phases raise.  The phases before `browser.start()`
(LLM setup, directories, profile) are out of scope here: the claims under
verification are conditioned on the browser having been started.
`restore_session_storage` wraps its body in a blanket exception handler
(agent_setup.py lines 137-174), so it is not a failure source. -/

/-- Browser/lifecycle events of one `run_agent_task` execution. -/
inductive RunEvent where
  | browserStart
  | restoreSession
  | createAgent
  | agentRun
  | exportState
  | exportSession
  | browserStop
  | reconcileDownloads
  deriving Repr, DecidableEq

/-- Which fallible phases of `run_agent_task` raise (a raise in `agentRun`
also stands for the task being cancelled at that point: cooperative
cancellation surfaces as an exception out of `await agent.run`). -/
structure RunBehavior where
  createAgentFails : Bool
  agentRunFails : Bool
  exportFails : Bool
  deriving Repr, DecidableEq

/-- The event trace of `run_agent_task` (agent_runner.py lines 58-123) after
the browser resource exists, paired with whether the call returns normally.
The browser is started (line 73); sessionStorage is restored when session
persistence is on (lines 77-78); the agent is created (line 81) — an
exception there propagates with no cleanup, because the `try`/`finally`
only begins at line 83; inside the `try`, the agent runs and, on success
with persistence on, storage state (and then sessionStorage) is exported,
with export failures caught at lines 98-99; the `finally` (lines 100-106)
always stops the browser; download reconciliation (line 109) runs only on
a normal return. -/
def run_agent_task (session_enabled : Bool) (b : RunBehavior) :
    List RunEvent × Bool :=
  let pre := [RunEvent.browserStart] ++
    (if session_enabled then [RunEvent.restoreSession] else [])
  if b.createAgentFails then (pre, false)
  else
    let pre := pre ++ [RunEvent.createAgent, RunEvent.agentRun]
    if b.agentRunFails then (pre ++ [RunEvent.browserStop], false)
    else
      let exports :=
        if session_enabled then
          if b.exportFails then [RunEvent.exportState]
          else [RunEvent.exportState, RunEvent.exportSession]
        else []
      (pre ++ exports ++ [RunEvent.browserStop, RunEvent.reconcileDownloads],
       true)

/-! ## browser_api.py -/

/-- The mutable state of a `BrowserTask` registry entry (browser_api.py
lines 36-65).  `captured_result` models the Python field `partial_result`
(renamed here); it is initialised to `None` and, in this code, never
assigned afterwards.  `agent` is the handle passed to the
constructor: `execute_task` always registers with `agent=None` (line 135)
and never assigns it, so `get_partial_result` always falls through to
`captured_result`.  `hasBrowserProcess` models `browser_process`, likewise
never assigned. -/
structure BrowserTaskState where
  status : String := "running"
  cancelled : Bool := false
  captured_result : Option String := none
  hasAgent : Bool := false
  hasBrowserProcess : Bool := false
  deriving Repr, DecidableEq

/-- A fresh `BrowserTask` as built at browser_api.py lines 39-45. -/
def initialTask : BrowserTaskState := {}

/-- The process-wide `active_tasks` dictionary (browser_api.py line 33). -/
def Registry : Type := String → Option BrowserTaskState

/-- `BrowserTask.cancel` (browser_api.py lines 47-58) as its effect on the
entry's state: sets the cancelled flag and the status; the SIGTERM to a
browser process (absent here, and its failure caught anyway) has no effect
on the registry state. -/
def cancelTask (st : BrowserTaskState) : BrowserTaskState :=
  { st with cancelled := true, status := "cancelled" }

/-- `BrowserTask.get_partial_result` (browser_api.py lines 60-65): with an
agent handle it would query the agent; `execute_task` never sets one, so the
stored capture (always `None` in this code) is returned. -/
def get_partial_result (st : BrowserTaskState) : Option String :=
  if st.hasAgent then st.captured_result else st.captured_result

/-- The JSON body returned by the `/cancel/{task_id}` endpoint
(browser_api.py lines 264-280): the not-found body carries `error`, the
cancelled body carries `message` and the partial capture. -/
structure CancelResponse where
  success : Bool
  task_id : String
  error : Option String := none
  message : Option String := none
  captured : Option String := none
  deriving Repr, DecidableEq

/-- `cancel_browser_task` (browser_api.py lines 255-280): looks the task up
in the registry; an unknown id yields the "not found or already completed"
body; a present entry — whatever its state — is cancelled and a success
body is returned.  The call is total: it never raises. -/
def cancel_browser_task (reg : Registry) (task_id : String) :
    CancelResponse × Registry :=
  match reg task_id with
  | none =>
      ({ success := false, task_id := task_id,
         error := some "Task not found or already completed" }, reg)
  | some st =>
      let st' := cancelTask st
      ({ success := true, task_id := task_id,
         message := some "Task cancelled",
         captured := get_partial_result st' },
       fun k => if k = task_id then some st' else reg k)

/-- The three ways `await asyncio.wait_for(run_agent_task request, timeout)`
(browser_api.py lines 139-142) can resolve: the body returns its result
dictionary, the body raises, or the deadline fires (`asyncio.TimeoutError`).
`elapsed` is the wall-clock figure `time.time() - start_time` observed when
`execute_task` resumes; for the deadline branch the `wait_for` semantics
put it at or above the requested timeout. -/
inductive RunOutcome where
  | completes (r : FinalResult) (elapsed : ℚ)
  | timesOut (elapsed : ℚ)
  | raises (msg : String) (elapsed : ℚ)

/-- Truthiness of `result.get("final_result")` (browser_api.py line 163):
`None` and the empty string are falsy. -/
def finalResultTruthy (o : Option String) : Bool :=
  match o with
  | none => false
  | some s => s ≠ ""

/-- The success determination of `execute_task` (browser_api.py
lines 156-166): an explicit `is_successful` boolean is used as-is; when it
is `None`, success is `is_done or (has_result and not has_errors)`. -/
def computeSuccess (r : FinalResult) : Bool :=
  match r.is_successful with
  | some b => b
  | none => r.is_done || (finalResultTruthy r.final_result && !r.has_errors)

/-- The error-field computation of `execute_task` (browser_api.py
lines 194-213): with no errors the field is absent; a detected OpenAI
rate-limit (checked first) or empty-JSON condition replaces the joined raw
text with the tailored guidance; otherwise the joined raw text is used. -/
def computeErrorField (r : FinalResult) : Option String :=
  if r.errors = [] then none
  else
    let joined := pyJoin "; " r.errors
    if r.openai_rate_limit then
      some (format_openai_error_message joined "rate_limit")
    else if r.openai_empty_json then
      some (format_openai_error_message joined "empty_json")
    else some joined

/-- A `TaskResponse` with only the mandatory fields set, the rest at the
pydantic defaults of models.py lines 115-136. -/
def defaultResponse (tid : String) : TaskResponse :=
  { task_id := tid, success := false }

/-- The response built on the normal-completion path of `execute_task`
(browser_api.py lines 215-232). -/
def normalResponse (tid : String) (r : FinalResult) (elapsed : ℚ) :
    TaskResponse :=
  { task_id := tid,
    success := computeSuccess r,
    result := r.final_result,
    final_url := r.urls.getLast?,
    urls_visited := r.urls,
    steps_taken := r.steps,
    execution_time := elapsed,
    gif_path := r.gif_path,
    error := computeErrorField r,
    judge_verdict := r.judge_verdict,
    cost := r.cost,
    cost_currency := r.cost_currency.getD "USD",
    llm_calls := r.llm_calls.getD 0,
    debug_data := r.debug_data,
    conversation_path := r.conversation_path,
    downloaded_files := r.downloaded_files }

/-- `execute_task` (browser_api.py lines 100-252) as a function of the run
outcome.  `genId` is the generated id used when the request carries none
(line 102).  `cancelledDuring` says whether a concurrent
`cancel_browser_task` hit the entry while the body ran (setting its
cancelled flag); the flag is consulted only on the normal-completion path
(lines 145-152), where it produces the "Task cancelled" body — whose
`partial_result` key is not a `TaskResponse` field and is dropped by
pydantic, and whose `execution_time` is left at the default.  The entry is
registered before the run (lines 135-136) and — on every path — never
removed from the registry nor marked completed. -/
def execute_task (req : TaskRequest) (genId : String) (outcome : RunOutcome)
    (cancelledDuring : Bool) (reg : Registry) : TaskResponse × Registry :=
  let tid := req.task_id.getD genId
  let entry := if cancelledDuring then cancelTask initialTask else initialTask
  let reg' : Registry := fun k => if k = tid then some entry else reg k
  match outcome with
  | .completes r elapsed =>
      if cancelledDuring then
        ({ defaultResponse tid with
           error := some "Task cancelled" }, reg')
      else (normalResponse tid r elapsed, reg')
  | .timesOut elapsed =>
      ({ defaultResponse tid with
         error := some ("Task timed out after " ++ toString req.timeout ++
           " seconds"),
         execution_time := elapsed }, reg')
  | .raises msg elapsed =>
      ({ defaultResponse tid with
         error := some msg,
         execution_time := elapsed }, reg')

/-! ## Shared sample values and small lemmas -/

/-- The empty task registry. -/
def emptyRegistry : Registry := fun _ => none

/-- A sample completed execution result used to instantiate theorems. -/
def sampleFinal : FinalResult :=
  { final_result := some "done", is_done := false, is_successful := none,
    has_errors := false, urls := ["https://example.com"], steps := 3,
    duration := 2, errors := [], openai_empty_json := false,
    openai_rate_limit := false, judge_verdict := none, gif_path := none,
    cost := none, cost_currency := none, llm_calls := none,
    debug_data := none, downloaded_files := [], conversation_path := none }

/-- Monadic bind on `Except` applied to a success is application. -/
theorem except_bind_ok {α β : Type} (a : α) (f : α → Except String β) :
    (Except.ok a : Except String α) >>= f = f a := rfl

/-- Monadic bind on `Except` applied to a failure propagates the failure. -/
theorem except_bind_error {α β : Type} (e : String)
    (f : α → Except String β) :
    (Except.error e : Except String α) >>= f = Except.error e := rfl

/-- Characterisation of `extract_basic_results` when every unguarded query
succeeds: the result is the record of the queried values, with the error
list cleaned, the provider-gated flags computed, and the judge verdict
taken through its fault containment (no hypothesis on the judge query). -/
theorem extract_basic_results_spec (h : History) (req : TaskRequest)
    (gif : Option String) (raw : List (Option String)) (fr : Option String)
    (isd : Bool) (iss : Option Bool) (he : Bool) (urls : List String)
    (steps : Nat) (dur : ℚ)
    (hE : h.errorsQ = .ok raw) (hF : h.finalResultQ = .ok fr)
    (hD : h.isDoneQ = .ok isd) (hS : h.isSuccessfulQ = .ok iss)
    (hH : h.hasErrorsQ = .ok he) (hU : h.urlsQ = .ok urls)
    (hN : h.stepsQ = .ok steps) (hDur : h.durationQ = .ok dur) :
    extract_basic_results h req gif = .ok
      { final_result := fr, is_done := isd, is_successful := iss,
        has_errors := he, urls := urls, steps := steps, duration := dur,
        errors := cleanErrors raw,
        openai_empty_json := (classifyErrors req (cleanErrors raw)).1,
        openai_rate_limit := (classifyErrors req (cleanErrors raw)).2,
        judge_verdict := judgeVerdictOf h,
        gif_path := if req.generate_gif then gif else none } := by
  unfold extract_basic_results
  rw [hE, except_bind_ok, hF, except_bind_ok, hD,
    except_bind_ok, hS, except_bind_ok, hH, except_bind_ok, hU,
    except_bind_ok, hN, except_bind_ok, hDur, except_bind_ok]
  rfl

/-- Inversion of `extract_basic_results`: a successful extraction pins the
derived fields to the queried values. -/
theorem extract_basic_results_ok_inv {h : History} {req : TaskRequest}
    {gif : Option String} {r : BasicResult}
    (hb : extract_basic_results h req gif = .ok r) :
    (∃ raw, h.errorsQ = .ok raw ∧ r.errors = cleanErrors raw) ∧
    r.openai_empty_json = (classifyErrors req r.errors).1 ∧
    r.openai_rate_limit = (classifyErrors req r.errors).2 ∧
    r.judge_verdict = judgeVerdictOf h ∧
    h.stepsQ = .ok r.steps := by
  unfold extract_basic_results at hb
  cases hE : h.errorsQ with
  | error e => rw [hE, except_bind_error] at hb; exact absurd hb (by simp)
  | ok raw =>
  rw [hE, except_bind_ok] at hb
  cases hF : h.finalResultQ with
  | error e => rw [hF, except_bind_error] at hb; exact absurd hb (by simp)
  | ok fr =>
  rw [hF, except_bind_ok] at hb
  cases hD : h.isDoneQ with
  | error e => rw [hD, except_bind_error] at hb; exact absurd hb (by simp)
  | ok isd =>
  rw [hD, except_bind_ok] at hb
  cases hS : h.isSuccessfulQ with
  | error e => rw [hS, except_bind_error] at hb; exact absurd hb (by simp)
  | ok iss =>
  rw [hS, except_bind_ok] at hb
  cases hH : h.hasErrorsQ with
  | error e => rw [hH, except_bind_error] at hb; exact absurd hb (by simp)
  | ok he =>
  rw [hH, except_bind_ok] at hb
  cases hU : h.urlsQ with
  | error e => rw [hU, except_bind_error] at hb; exact absurd hb (by simp)
  | ok urls =>
  rw [hU, except_bind_ok] at hb
  cases hN : h.stepsQ with
  | error e => rw [hN, except_bind_error] at hb; exact absurd hb (by simp)
  | ok steps =>
  rw [hN, except_bind_ok] at hb
  cases hDur : h.durationQ with
  | error e => rw [hDur, except_bind_error] at hb; exact absurd hb (by simp)
  | ok dur =>
  rw [hDur, except_bind_ok] at hb
  have hr : r = { final_result := fr, is_done := isd, is_successful := iss,
                  has_errors := he, urls := urls, steps := steps,
                  duration := dur, errors := cleanErrors raw,
                  openai_empty_json := (classifyErrors req (cleanErrors raw)).1,
                  openai_rate_limit := (classifyErrors req (cleanErrors raw)).2,
                  judge_verdict := judgeVerdictOf h,
                  gif_path := if req.generate_gif then gif else none } :=
    (Except.ok.inj hb).symm
  subst hr
  exact ⟨⟨raw, rfl, rfl⟩, rfl, rfl, rfl, rfl⟩

/-- The content list of the debug bundle (result_processing.py
lines 178-185): fault-contained, degrading to an empty list. -/
def debugContentOf (h : History) : List String :=
  match h.extractedContentQ with
  | .ok l => l
  | .error _ => []

/-- The model-thought list of the debug bundle (result_processing.py
lines 188-205): fault-contained, degrading to an empty list; steps are
numbered from 1 as by `enumerate(thoughts, 1)`. -/
def debugThoughtsOf (h : History) : List ModelThought :=
  match h.modelThoughtsQ with
  | .ok l => l.enum.map fun p => ⟨p.1 + 1, p.2⟩
  | .error _ => []

/-- Characterisation of `extract_debug_data` in debug mode when the
performance queries succeed. -/
theorem extract_debug_data_spec (h : History) (req : TaskRequest) (d : ℚ)
    (s : Nat) (us : List String) (he : Bool) (hm : req.debug_mode = true)
    (hdur : h.durationQ = .ok d) (hst : h.stepsQ = .ok s)
    (hurl : h.urlsQ = .ok us) (hhe : h.hasErrorsQ = .ok he) :
    extract_debug_data h req = .ok
      (some ⟨debugContentOf h, debugThoughtsOf h, ⟨d, s, us.length, he⟩⟩) := by
  unfold extract_debug_data
  rw [hm, hdur, hst, hurl, hhe]
  rfl

/-- Inversion of `extract_debug_data`: a present bundle implies debug mode
was on and pins `performance.steps` to the queried step count. -/
theorem extract_debug_data_some_inv {h : History} {req : TaskRequest}
    {dd : DebugData} (hd : extract_debug_data h req = .ok (some dd)) :
    req.debug_mode = true ∧ h.stepsQ = .ok dd.performance.steps := by
  unfold extract_debug_data at hd
  cases hm : req.debug_mode with
  | false => rw [hm] at hd; exact absurd hd (by simp)
  | true =>
  rw [hm] at hd
  simp only [Bool.not_true, Bool.false_eq_true, if_false] at hd
  cases hdur : h.durationQ with
  | error e => rw [hdur] at hd; exact absurd hd (by simp)
  | ok d =>
  rw [hdur] at hd
  cases hst : h.stepsQ with
  | error e => rw [hst] at hd; exact absurd hd (by simp)
  | ok s =>
  rw [hst] at hd
  cases hurl : h.urlsQ with
  | error e => rw [hurl] at hd; exact absurd hd (by simp)
  | ok us =>
  rw [hurl] at hd
  cases hhe : h.hasErrorsQ with
  | error e => rw [hhe] at hd; exact absurd hd (by simp)
  | ok he =>
  rw [hhe] at hd
  have hdd : dd = ⟨debugContentOf h, debugThoughtsOf h, ⟨d, s, us.length, he⟩⟩ :=
    (Option.some.inj (Except.ok.inj hd)).symm
  subst hdd
  exact ⟨rfl, rfl⟩

/-! ## Claims -/

/-- Claim C10: on a completed execution, an explicit `is_successful` boolean
from the history is used as the response's success flag as-is; when it is
indeterminate (`None`), success is computed by the fallback rule: true iff
`is_done` is true, or a non-empty final result exists and `has_errors` is
false (browser_api.py lines 156-166). -/
theorem c10_success_fallback (req : TaskRequest) (genId : String)
    (reg : Registry) (r : FinalResult) (elapsed : ℚ) :
    (∀ b, r.is_successful = some b →
      (execute_task req genId (.completes r elapsed) false reg).1.success = b) ∧
    (r.is_successful = none →
      ((execute_task req genId (.completes r elapsed) false reg).1.success = true ↔
        (r.is_done = true ∨
          (∃ s, r.final_result = some s ∧ s ≠ "" ∧ r.has_errors = false)))) := by
  constructor
  · intro b hb
    simp [execute_task, normalResponse, computeSuccess, hb]
  · intro hn
    simp only [execute_task, normalResponse, computeSuccess, hn,
      Bool.if_false_left]
    cases hd : r.is_done <;> cases he : r.has_errors <;>
      cases hf : r.final_result <;> simp [finalResultTruthy, hf]

/-- Witness for C10: with an indeterminate `is_successful`, a non-empty
final result and no errors, the response reports success. -/
theorem c10_success_fallback_witness :
    (execute_task { task := "t" } "g" (.completes sampleFinal 5) false
      emptyRegistry).1.success = true := by
  have h := (c10_success_fallback { task := "t" } "g" emptyRegistry
    sampleFinal 5).2 rfl
  exact h.mpr (Or.inr ⟨"done", rfl, by decide, rfl⟩)

/-- Claim C4: a task whose execution does not return within the requested
timeout yields the distinct timed-out body (browser_api.py lines 234-242):
success false, no result, no fabricated flags, the fixed "Task timed out
after N seconds" message, and an execution time equal to the measured
elapsed figure, hence at least the timeout (the `asyncio.wait_for` deadline
fires no earlier than the timeout, which the hypothesis encodes); and both
the timeout and the generic-exception failure bodies carry the measured
execution-time figure, as does the normal-completion body. -/
theorem c4_timeout_response (req : TaskRequest) (genId : String)
    (reg : Registry) (elapsed : ℚ) (h : (req.timeout : ℚ) ≤ elapsed) :
    ((execute_task req genId (.timesOut elapsed) false reg).1.success = false ∧
     (execute_task req genId (.timesOut elapsed) false reg).1.result = none ∧
     (execute_task req genId (.timesOut elapsed) false reg).1.judge_verdict = none ∧
     (execute_task req genId (.timesOut elapsed) false reg).1.steps_taken = 0 ∧
     (execute_task req genId (.timesOut elapsed) false reg).1.error =
       some ("Task timed out after " ++ toString req.timeout ++ " seconds") ∧
     (execute_task req genId (.timesOut elapsed) false reg).1.execution_time = elapsed ∧
     (req.timeout : ℚ) ≤
       (execute_task req genId (.timesOut elapsed) false reg).1.execution_time) ∧
    (∀ msg e₂,
      (execute_task req genId (.raises msg e₂) false reg).1.success = false ∧
      (execute_task req genId (.raises msg e₂) false reg).1.error = some msg ∧
      (execute_task req genId (.raises msg e₂) false reg).1.execution_time = e₂) ∧
    (∀ r e₃,
      (execute_task req genId (.completes r e₃) false reg).1.execution_time = e₃) := by
  refine ⟨⟨rfl, rfl, rfl, rfl, rfl, rfl, ?_⟩, fun msg e₂ => ⟨rfl, rfl, rfl⟩,
    fun r e₃ => rfl⟩
  simpa [execute_task, defaultResponse] using h

/-- Witness for C4: a default request (timeout 900) whose execution is still
running when the deadline fires at 1000 seconds gets the timed-out body. -/
theorem c4_timeout_response_witness :
    (execute_task { task := "t" } "g" (.timesOut 1000) false
        emptyRegistry).1.error =
      some "Task timed out after 900 seconds" ∧
    (execute_task { task := "t" } "g" (.timesOut 1000) false
        emptyRegistry).1.execution_time = 1000 := by
  have h := c4_timeout_response { task := "t" } "g" emptyRegistry 1000
    (by norm_num)
  exact ⟨h.1.2.2.2.2.1, h.1.2.2.2.2.2.1⟩

/-- Claim C2, counterexample: when agent creation raises — which happens
after `browser.start()` (agent_runner.py line 73) but before the
`try`/`finally` cleanup scope (line 83) — the execution body exits with the
browser started and `browser.stop` never invoked, refuting "browser.stop is
invoked on every exit path after the browser has been started". -/
theorem c2_cleanup_counterexample :
    RunEvent.browserStart ∈ (run_agent_task true ⟨true, false, false⟩).1 ∧
    RunEvent.browserStop ∉ (run_agent_task true ⟨true, false, false⟩).1 := by
  decide

/-- Claim C2 (amended): provided agent creation does not raise, the
execution body invokes `browser.stop` on every exit path — normal
completion, exception or cancellation surfacing out of `agent.run`, and
export failure — and the session-state export (when enabled and the run
succeeded) happens strictly before the browser is stopped, while the
session is still live; but an exception in agent creation, after the
browser has started, exits without invoking `browser.stop`
(agent_runner.py lines 69-106). -/
theorem c2_cleanup_amended (se : Bool) (b : RunBehavior) :
    (b.createAgentFails = false →
      RunEvent.browserStop ∈ (run_agent_task se b).1 ∧
      (se = true → b.agentRunFails = false →
        RunEvent.exportState ∈
          ((run_agent_task se b).1.takeWhile
            fun e => decide (e ≠ RunEvent.browserStop)) ∧
        (b.exportFails = false →
          RunEvent.exportSession ∈
            ((run_agent_task se b).1.takeWhile
              fun e => decide (e ≠ RunEvent.browserStop))))) ∧
    (b.createAgentFails = true →
      RunEvent.browserStart ∈ (run_agent_task se b).1 ∧
      RunEvent.browserStop ∉ (run_agent_task se b).1) := by
  obtain ⟨ca, ar, ex⟩ := b
  cases ca <;> cases ar <;> cases ex <;> cases se <;> exact (by decide)

/-- Witness for C2 (amended): a fully successful run with session
persistence enabled stops the browser, and exports both state artifacts
before doing so. -/
theorem c2_cleanup_amended_witness :
    RunEvent.browserStop ∈ (run_agent_task true ⟨false, false, false⟩).1 ∧
    RunEvent.exportSession ∈
      ((run_agent_task true ⟨false, false, false⟩).1.takeWhile
        fun e => decide (e ≠ RunEvent.browserStop)) := by
  have h := c2_cleanup_amended true ⟨false, false, false⟩
  exact ⟨(h.1 rfl).1, (((h.1 rfl).2 rfl rfl).2 rfl)⟩

/-- Claim C1, counterexample: `execute_task` never removes a naturally
completed task from `active_tasks` (browser_api.py never deletes the entry
nor marks it completed), so cancelling after natural completion returns the
success body ("Task cancelled"), not the "not found or already completed"
indication — and so does a second cancel of the same id. -/
theorem c1_cancel_counterexample :
    (cancel_browser_task
      (execute_task { task := "t", task_id := some "t1" } "g"
        (.completes sampleFinal 5) false emptyRegistry).2 "t1").1.success = true ∧
    (cancel_browser_task
      (execute_task { task := "t", task_id := some "t1" } "g"
        (.completes sampleFinal 5) false emptyRegistry).2 "t1").1.error ≠
      some "Task not found or already completed" ∧
    (cancel_browser_task
      (cancel_browser_task
        (execute_task { task := "t", task_id := some "t1" } "g"
          (.completes sampleFinal 5) false emptyRegistry).2 "t1").2 "t1").1.success
      = true ∧
    (cancel_browser_task
      (cancel_browser_task
        (execute_task { task := "t", task_id := some "t1" } "g"
          (.completes sampleFinal 5) false emptyRegistry).2 "t1").2 "t1").1.error
      = none := by
  refine ⟨rfl, ?_, rfl, rfl⟩
  simp [cancel_browser_task, execute_task]

/-- Claim C1 (amended): cancellation is total (the endpoint never raises).
Cancelling an id not in the registry reports the "not found or already
completed" body with success false.  But completed tasks are never removed
from the registry (`execute_task` registers the entry and no path deletes
it), so cancelling a task that already completed naturally — or cancelling
the same id a second time — finds the entry and reports success with
message "Task cancelled", not the "not found or already completed"
indication (browser_api.py lines 133-136 and 255-280). -/
theorem c1_cancel_amended (reg : Registry) (tid : String) :
    (reg tid = none →
      (cancel_browser_task reg tid).1.success = false ∧
      (cancel_browser_task reg tid).1.error =
        some "Task not found or already completed") ∧
    (∀ st, reg tid = some st →
      (cancel_browser_task reg tid).1.success = true ∧
      (cancel_browser_task reg tid).1.message = some "Task cancelled" ∧
      (cancel_browser_task reg tid).1.error = none ∧
      (cancel_browser_task reg tid).2 tid = some (cancelTask st)) ∧
    (∀ req genId outcome cd,
      (execute_task req genId outcome cd reg).2 (req.task_id.getD genId) ≠
        none) := by
  refine ⟨fun hn => ?_, fun st hs => ?_, fun req genId outcome cd => ?_⟩
  · simp [cancel_browser_task, hn]
  · simp [cancel_browser_task, hs]
  · cases outcome <;> cases cd <;> simp [execute_task]

/-- Witness for C1 (amended): on a concrete one-entry registry, cancelling
an unknown id reports "not found or already completed", and cancelling the
present id succeeds. -/
theorem c1_cancel_amended_witness :
    (cancel_browser_task
      (fun k => if k = "t1" then some initialTask else none) "zzz").1.error =
      some "Task not found or already completed" ∧
    (cancel_browser_task
      (fun k => if k = "t1" then some initialTask else none) "t1").1.success =
      true := by
  refine ⟨(((c1_cancel_amended
      (fun k => if k = "t1" then some initialTask else none) "zzz").1) ?_).2,
    (((c1_cancel_amended
      (fun k => if k = "t1" then some initialTask else none) "t1").2.1)
      initialTask ?_).1⟩
  · simp
  · simp

/-- A history whose judge-verdict query raises while every other query
succeeds. -/
def sampleJudgeFailHistory : History :=
  { errorsQ := .ok [], finalResultQ := .ok (some "ok"), isDoneQ := .ok true,
    isSuccessfulQ := .ok (some true), hasErrorsQ := .ok false,
    urlsQ := .ok ["https://e.com"], stepsQ := .ok 2, durationQ := .ok 7,
    judgementQ := .error "judge query raised" }

/-- Claim C3: when the judge-verdict query raises but every other query
succeeds, `extract_basic_results` still returns a report whose
`judge_verdict` is absent (`none`) while all other fields are populated
normally from the queried values (the `try`/`except` at
result_processing.py lines 100-113 contains the fault); and
`assemble_final_result` (lines 218-224) is total — it always produces the
final report, preserving every populated field and the absent verdict. -/
theorem c3_judge_fault_isolation (h : History) (req : TaskRequest)
    (gif : Option String) (raw : List (Option String)) (fr : Option String)
    (isd : Bool) (iss : Option Bool) (he : Bool) (urls : List String)
    (steps : Nat) (dur : ℚ) (emsg : String)
    (hE : h.errorsQ = .ok raw) (hF : h.finalResultQ = .ok fr)
    (hD : h.isDoneQ = .ok isd) (hS : h.isSuccessfulQ = .ok iss)
    (hH : h.hasErrorsQ = .ok he) (hU : h.urlsQ = .ok urls)
    (hN : h.stepsQ = .ok steps) (hDur : h.durationQ = .ok dur)
    (hJ : h.judgementQ = .error emsg) :
    extract_basic_results h req gif = .ok
      { final_result := fr, is_done := isd, is_successful := iss,
        has_errors := he, urls := urls, steps := steps, duration := dur,
        errors := cleanErrors raw,
        openai_empty_json := (classifyErrors req (cleanErrors raw)).1,
        openai_rate_limit := (classifyErrors req (cleanErrors raw)).2,
        judge_verdict := none,
        gif_path := if req.generate_gif then gif else none } ∧
    (∀ (b : BasicResult) (cost : CostData) (dbg : Option DebugData)
        (dl : List String) (conv : Option String), b.judge_verdict = none →
      (assemble_final_result b cost dbg dl conv).judge_verdict = none ∧
      (assemble_final_result b cost dbg dl conv).final_result = b.final_result ∧
      (assemble_final_result b cost dbg dl conv).is_done = b.is_done ∧
      (assemble_final_result b cost dbg dl conv).is_successful = b.is_successful ∧
      (assemble_final_result b cost dbg dl conv).has_errors = b.has_errors ∧
      (assemble_final_result b cost dbg dl conv).urls = b.urls ∧
      (assemble_final_result b cost dbg dl conv).steps = b.steps ∧
      (assemble_final_result b cost dbg dl conv).duration = b.duration ∧
      (assemble_final_result b cost dbg dl conv).errors = b.errors ∧
      (assemble_final_result b cost dbg dl conv).cost = cost.cost ∧
      (assemble_final_result b cost dbg dl conv).llm_calls = cost.llm_calls ∧
      (assemble_final_result b cost dbg dl conv).debug_data = dbg ∧
      (assemble_final_result b cost dbg dl conv).downloaded_files = dl ∧
      (assemble_final_result b cost dbg dl conv).conversation_path = conv) := by
  constructor
  · have hs := extract_basic_results_spec h req gif raw fr isd iss he urls
      steps dur hE hF hD hS hH hU hN hDur
    rw [hs]
    have hj : judgeVerdictOf h = none := by unfold judgeVerdictOf; rw [hJ]
    rw [hj]
  · intro b cost dbg dl conv hjb
    exact ⟨hjb, rfl, rfl, rfl, rfl, rfl, rfl, rfl, rfl, rfl, rfl, rfl, rfl,
      rfl⟩

/-- Witness for C3: on a concrete history whose judge query raises, the
report comes back with `judge_verdict = none` and all other fields
populated. -/
theorem c3_judge_fault_isolation_witness :
    extract_basic_results sampleJudgeFailHistory { task := "t" } none = .ok
      { final_result := some "ok", is_done := true,
        is_successful := some true, has_errors := false,
        urls := ["https://e.com"], steps := 2, duration := 7, errors := [],
        openai_empty_json := false, openai_rate_limit := false,
        judge_verdict := none, gif_path := none } :=
  (c3_judge_fault_isolation sampleJudgeFailHistory { task := "t" } none []
    (some "ok") true (some true) false ["https://e.com"] 2 7
    "judge query raised" rfl rfl rfl rfl rfl rfl rfl rfl rfl).1

/-- A history with debug-relevant queries populated. -/
def sampleDebugHistory : History :=
  { stepsQ := .ok 4, durationQ := .ok 9,
    urlsQ := .ok ["https://a", "https://b"], hasErrorsQ := .ok false,
    extractedContentQ := .ok ["x"], modelThoughtsQ := .ok ["t1", "t2"] }

/-- Claim C9: with `debug_mode = false` the debug bundle is entirely absent
from the result (`extract_debug_data` returns `None` before touching the
history, result_processing.py lines 171-172); with `debug_mode = true` any
produced bundle has `performance.steps` equal to the report's own step
count (both are `history.number_of_steps()`); and `execute_task` passes
the bundle through to the response unchanged (browser_api.py line 229). -/
theorem c9_debug_presence (h : History) (req : TaskRequest)
    (gif : Option String) :
    (req.debug_mode = false → extract_debug_data h req = .ok none) ∧
    (∀ r dd, extract_basic_results h req gif = .ok r →
      extract_debug_data h req = .ok (some dd) →
      req.debug_mode = true ∧ dd.performance.steps = r.steps) ∧
    (∀ (r : FinalResult) (genId : String) (reg : Registry) (elapsed : ℚ),
      (execute_task req genId (.completes r elapsed) false reg).1.debug_data =
        r.debug_data) := by
  refine ⟨fun hm => ?_, fun r dd hb hd => ?_, fun r genId reg elapsed => rfl⟩
  · unfold extract_debug_data; rw [hm]; rfl
  · obtain ⟨hmode, hsteps⟩ := extract_debug_data_some_inv hd
    have h2 := (extract_basic_results_ok_inv hb).2.2.2.2
    rw [h2] at hsteps
    exact ⟨hmode, (Except.ok.inj hsteps).symm⟩

/-- Witness for C9: a concrete debug-mode run produces a bundle whose
`performance.steps` equals the report's step count. -/
theorem c9_debug_presence_witness :
    ({ task := "t", debug_mode := true } : TaskRequest).debug_mode = true ∧
    (⟨["x"], [⟨1, "t1"⟩, ⟨2, "t2"⟩], ⟨9, 4, 2, false⟩⟩ :
        DebugData).performance.steps =
      ({ final_result := none, is_done := false, is_successful := none,
         has_errors := false, urls := ["https://a", "https://b"], steps := 4,
         duration := 9, errors := [], openai_empty_json := false,
         openai_rate_limit := false, judge_verdict := none,
         gif_path := none } : BasicResult).steps :=
  (c9_debug_presence sampleDebugHistory { task := "t", debug_mode := true }
    none).2.1 _ _ rfl rfl

/-- Claim C8: with cost calculation enabled, a usage record lacking a
directly computed cost — absent usage, a raising usage query, or a usage
with neither `total_cost` nor `cost` — yields an absent cost (`None`,
never zero) while the call count is still reported as the history's step
count; a usage carrying a total cost yields that cost with currency "USD";
with cost calculation disabled, cost is absent and the call count is 0
(result_processing.py lines 124-166). -/
theorem c8_cost_fallback (h : History) (req : TaskRequest) (steps : Nat)
    (hst : h.stepsQ = .ok steps) :
    (req.calculate_cost = true →
      (h.usageQ = .ok none →
        extract_cost_data h req = .ok ⟨none, none, some steps⟩) ∧
      (∀ e, h.usageQ = .error e →
        extract_cost_data h req = .ok ⟨none, none, some steps⟩) ∧
      (∀ u, h.usageQ = .ok (some u) → u.total_cost = none → u.cost = none →
        extract_cost_data h req = .ok ⟨none, none, some steps⟩) ∧
      (∀ u c, h.usageQ = .ok (some u) → u.total_cost = some c →
        extract_cost_data h req = .ok ⟨some c, some "USD",
          if u.input_tokens.isSome && u.output_tokens.isSome then some 1
          else none⟩)) ∧
    (req.calculate_cost = false →
      extract_cost_data h req = .ok ⟨none, none, some 0⟩) := by
  refine ⟨fun hc => ⟨fun hu => ?_, fun e hu => ?_, fun u hu ht hc2 => ?_,
    fun u c hu ht => ?_⟩, fun hc => ?_⟩
  · simp [extract_cost_data, hc, hu, hst]
  · simp [extract_cost_data, hc, hu, hst]
  · by_cases htok : u.input_tokens.isSome && u.output_tokens.isSome <;>
      simp [extract_cost_data, hc, hu, hst, costFromUsage, ht, hc2, htok]
  · by_cases htok : u.input_tokens.isSome && u.output_tokens.isSome <;>
      simp [extract_cost_data, hc, hu, costFromUsage, ht, htok]
  · simp [extract_cost_data, hc]

/-- A history whose usage record carries a directly computed total cost. -/
def sampleCostHistory : History :=
  { stepsQ := .ok 5,
    usageQ := .ok (some { total_cost := some (3 / 100), cost := none,
                          input_tokens := some 10,
                          output_tokens := some 20 }) }

/-- A history whose usage record lacks any computed cost. -/
def sampleNoCostHistory : History :=
  { stepsQ := .ok 5, usageQ := .ok (some {}) }

/-- Witness for C8: a usage with a total cost reports that cost in USD with
one tracked call; a usage without one degrades to an absent cost and the
step count as call count. -/
theorem c8_cost_fallback_witness :
    extract_cost_data sampleCostHistory { task := "t" } =
      .ok ⟨some (3 / 100), some "USD", some 1⟩ ∧
    extract_cost_data sampleNoCostHistory { task := "t" } =
      .ok ⟨none, none, some 5⟩ := by
  constructor
  · exact ((c8_cost_fallback sampleCostHistory { task := "t" } 5 rfl).1
      rfl).2.2.2 _ (3 / 100) rfl rfl
  · exact (((c8_cost_fallback sampleNoCostHistory { task := "t" } 5 rfl).1
      rfl).2.2.1) _ rfl rfl rfl

/-- `setItem` on a store that does not yet hold the key appends the
entry. -/
theorem setItem_append (acc : List (String × String)) (d : String × String)
    (hd : ∀ e ∈ acc, e.1 ≠ d.1) : setItem acc d = acc ++ [d] := by
  have hany : (acc.any fun e => e.1 = d.1) = false := by
    simp only [List.any_eq_false, decide_eq_true_eq]
    exact hd
  simp [setItem, hany]

/-- Folding `setItem` over entries whose keys are fresh and mutually
distinct appends them in order. -/
theorem foldl_setItem (data : List (String × String)) :
    ∀ acc : List (String × String), (data.map Prod.fst).Nodup →
    (∀ kv ∈ data, ∀ e ∈ acc, e.1 ≠ kv.1) →
    data.foldl setItem acc = acc ++ data := by
  induction data with
  | nil => intro acc _ _; simp
  | cons d ds ih =>
    intro acc hnd hdisj
    rw [List.foldl_cons,
      setItem_append acc d fun e he => hdisj d (List.mem_cons_self d ds) e he]
    rw [List.map_cons] at hnd
    rw [ih (acc ++ [d]) (List.Nodup.of_cons hnd) ?_]
    · simp
    · intro kv hkv e he
      rcases List.mem_append.mp he with h1 | h2
      · exact hdisj kv (List.mem_cons_of_mem d hkv) e h1
      · have hed : e = d := by simpa using h2
        subst hed
        intro heq
        exact (List.nodup_cons.mp hnd).1
          (heq ▸ List.mem_map_of_mem Prod.fst hkv)

/-- Claim C5: exporting session storage captured from a page of origin `O`
with data `D` and restoring against a live fresh page of the same origin
yields session storage containing exactly `D`; restoring against a page of
any different origin leaves that page's session storage unchanged — the
mismatch is silently skipped by the origin gate of the injected script
(agent_setup.py lines 156-167), never an error (`restore_session_storage`
is total in this model, as its Python body catches every exception). -/
theorem c5_session_storage_roundtrip :
    (∀ p fresh : Page, fresh.origin = p.origin → fresh.storage = [] →
      (p.storage.map Prod.fst).Nodup →
      restore_session_storage (export_session_storage (some p)) fresh =
        { fresh with storage := p.storage }) ∧
    (∀ (snap : SessionSnapshot) (q : Page), q.origin ≠ snap.origin →
      restore_session_storage (some snap) q = q) ∧
    (∀ q : Page, restore_session_storage none q = q) := by
  refine ⟨fun p fresh ho hs hnd => ?_, fun snap q hq => ?_, fun q => rfl⟩
  · obtain ⟨po, ps⟩ := p
    obtain ⟨fo, fs⟩ := fresh
    dsimp at ho hs hnd ⊢
    subst hs
    subst ho
    cases ps with
    | nil => rfl
    | cons kv rest =>
      show restore_session_storage (some ⟨fo, kv :: rest⟩) ⟨fo, []⟩ =
        ⟨fo, kv :: rest⟩
      unfold restore_session_storage restoreScript
      simp only [List.isEmpty_cons, Bool.false_eq_true, if_false, if_pos rfl]
      have hfold := foldl_setItem (kv :: rest) [] hnd
        (fun kv2 _ e he => absurd he (List.not_mem_nil e))
      rw [hfold]
      rfl
  · unfold restore_session_storage restoreScript
    rcases snap with ⟨so, sd⟩
    cases sd with
    | nil => rfl
    | cons kv rest =>
      simp only [List.isEmpty_cons, Bool.false_eq_true, if_false]
      rw [if_neg (by simpa using hq)]

/-- Witness for C5: the spec's example — origin `O`, data
`{a: "1", b: "2"}` — round-trips exactly, and a mismatched origin is left
untouched. -/
theorem c5_session_storage_roundtrip_witness :
    restore_session_storage
        (export_session_storage
          (some ⟨"https://site.test", [("a", "1"), ("b", "2")]⟩))
        ⟨"https://site.test", []⟩ =
      ⟨"https://site.test", [("a", "1"), ("b", "2")]⟩ ∧
    restore_session_storage
        (some ⟨"https://site.test", [("a", "1"), ("b", "2")]⟩)
        ⟨"https://other.test", ["k", "v"] |>.zip ["k", "v"]⟩ =
      ⟨"https://other.test", ["k", "v"] |>.zip ["k", "v"]⟩ := by
  constructor
  · exact (c5_session_storage_roundtrip).1
      ⟨"https://site.test", [("a", "1"), ("b", "2")]⟩
      ⟨"https://site.test", []⟩ rfl rfl (by decide)
  · exact (c5_session_storage_roundtrip).2.1
      ⟨"https://site.test", [("a", "1"), ("b", "2")]⟩
      ⟨"https://other.test", ["k", "v"] |>.zip ["k", "v"]⟩ (by decide)

/-- A file name is its stem followed by its suffix. -/
theorem stem_append_suffix (n : String) :
    (pathStemSuffix n).1 ++ (pathStemSuffix n).2 = n := by
  unfold pathStemSuffix
  cases h : rfindDot n.data with
  | none => exact String.append_empty n
  | some i =>
    by_cases hc : 0 < i ∧ i < n.data.length - 1
    · simp only [hc, if_true, and_self, if_pos]
      show (⟨n.data.take i⟩ : String) ++ ⟨n.data.drop i⟩ = n
      have hmk : (⟨n.data.take i⟩ : String) ++ ⟨n.data.drop i⟩ =
          ⟨n.data.take i ++ n.data.drop i⟩ := rfl
      rw [hmk, List.take_append_drop]
    · simp only [hc, if_false]
      exact String.append_empty n

/-- The timestamp-suffixed collision name differs from the original name:
it is strictly longer. -/
theorem timestampedName_ne (n ts : String) : timestampedName n ts ≠ n := by
  intro h
  have hlen := congrArg String.length h
  unfold timestampedName at hlen
  have hn := congrArg String.length (stem_append_suffix n)
  rw [String.length_append] at hn
  rw [String.length_append, String.length_append, String.length_append]
    at hlen
  have h1 : ("_" : String).length = 1 := rfl
  omega

/-- The target-contents and moved-list components of the per-file fold do
not depend on the accumulated leftover files. -/
theorem foldl_processFile_indep (rel ts : String)
    (files : List (String × Bool)) :
    ∀ (tgt mv l₁ l₂ : List String),
    (files.foldl (processFile rel ts) (tgt, mv, l₁)).1 =
      (files.foldl (processFile rel ts) (tgt, mv, l₂)).1 ∧
    (files.foldl (processFile rel ts) (tgt, mv, l₁)).2.1 =
      (files.foldl (processFile rel ts) (tgt, mv, l₂)).2.1 := by
  induction files with
  | nil => intro tgt mv l₁ l₂; exact ⟨rfl, rfl⟩
  | cons f fs ih =>
    intro tgt mv l₁ l₂
    rw [List.foldl_cons, List.foldl_cons]
    cases hf : f.2 with
    | true => simpa [processFile, hf] using ih tgt mv (l₁ ++ [f.1]) (l₂ ++ [f.1])
    | false =>
      simpa [processFile, hf] using
        ih (tgt ++ [if f.1 ∈ tgt then timestampedName f.1 ts else f.1])
          (mv ++ [rel ++ "/" ++
            (if f.1 ∈ tgt then timestampedName f.1 ts else f.1)]) l₁ l₂

/-- Every path the per-file fold adds to the moved list is rooted at the
relative download directory. -/
theorem processFile_moved_shape (rel ts : String)
    (files : List (String × Bool)) :
    ∀ (acc : List String × List String × List String) (p : String),
    p ∈ (files.foldl (processFile rel ts) acc).2.1 →
    p ∈ acc.2.1 ∨ ∃ n, p = rel ++ "/" ++ n := by
  induction files with
  | nil => intro acc p hp; exact Or.inl hp
  | cons f fs ih =>
    intro acc p hp
    rw [List.foldl_cons] at hp
    rcases ih _ p hp with h1 | h2
    · unfold processFile at h1
      cases hf : f.2 with
      | true => rw [hf] at h1; simp at h1; exact Or.inl h1
      | false =>
        rw [hf] at h1
        simp at h1
        rcases h1 with h1a | h1b
        · exact Or.inl h1a
        · exact Or.inr ⟨_, h1b⟩
    · exact Or.inr h2

/-- Every path `handle_downloads` adds to the moved list is rooted at the
relative download directory. -/
theorem processDir_moved_shape (rel ts : String) (dirs : List ScratchDir) :
    ∀ (st : DState) (p : String),
    p ∈ (dirs.foldl (processDir rel ts) st).moved →
    p ∈ st.moved ∨ ∃ n, p = rel ++ "/" ++ n := by
  induction dirs with
  | nil => intro st p hp; exact Or.inl hp
  | cons d ds ih =>
    intro st p hp
    rw [List.foldl_cons] at hp
    rcases ih _ p hp with h1 | h2
    · unfold processDir at h1
      dsimp at h1
      rcases processFile_moved_shape rel ts d.files
          (st.target, st.moved, []) p h1 with h1a | h1b
      · exact Or.inl h1a
      · exact Or.inr h1b
    · exact Or.inr h2

/-- Claim C6: a scratch directory holding a file whose name already exists
in the target directory reconciles to two distinct files — the pre-existing
name still present and a strictly different timestamp-suffixed copy — with
the scratch directory gone afterwards and the returned list holding the new
file's path relative to the downloads root; a per-file move failure does
not abort the remaining files (the fold continues with target and moved
lists exactly as if the failed file were skipped); with no scratch
directory the result is an empty moved list and an unchanged target; and
every returned path is relative to the downloads root
(result_processing.py lines 14-70). -/
theorem c6_download_reconciliation :
    (∀ (name : String) (tgt : List String) (rel ts : String), name ∈ tgt →
      (handle_downloads [⟨[(name, false)], false⟩] tgt rel ts).target =
        tgt ++ [timestampedName name ts] ∧
      name ∈ (handle_downloads [⟨[(name, false)], false⟩] tgt rel ts).target ∧
      timestampedName name ts ≠ name ∧
      (handle_downloads [⟨[(name, false)], false⟩] tgt rel ts).remaining = [] ∧
      (handle_downloads [⟨[(name, false)], false⟩] tgt rel ts).moved =
        [rel ++ "/" ++ timestampedName name ts]) ∧
    (∀ (f : String) (rest : List (String × Bool)) (rm : Bool)
        (tgt : List String) (rel ts : String),
      (handle_downloads [⟨(f, true) :: rest, rm⟩] tgt rel ts).target =
        (handle_downloads [⟨rest, rm⟩] tgt rel ts).target ∧
      (handle_downloads [⟨(f, true) :: rest, rm⟩] tgt rel ts).moved =
        (handle_downloads [⟨rest, rm⟩] tgt rel ts).moved) ∧
    (∀ (tgt : List String) (rel ts : String),
      handle_downloads [] tgt rel ts = ⟨tgt, [], []⟩) ∧
    (∀ (dirs : List ScratchDir) (tgt : List String) (rel ts p : String),
      p ∈ (handle_downloads dirs tgt rel ts).moved →
      ∃ n, p = rel ++ "/" ++ n) := by
  refine ⟨fun name tgt rel ts hmem => ?_, fun f rest rm tgt rel ts => ?_,
    fun tgt rel ts => rfl, fun dirs tgt rel ts p hp => ?_⟩
  · refine ⟨?_, ?_, timestampedName_ne name ts, ?_, ?_⟩ <;>
      simp [handle_downloads, processDir, processFile, hmem]
  · have key : ∀ st : DState,
        (processDir rel ts st ⟨(f, true) :: rest, rm⟩).target =
          (processDir rel ts st ⟨rest, rm⟩).target ∧
        (processDir rel ts st ⟨(f, true) :: rest, rm⟩).moved =
          (processDir rel ts st ⟨rest, rm⟩).moved := by
      intro st
      unfold processDir
      dsimp only
      rw [List.foldl_cons]
      have hstep : processFile rel ts (st.target, st.moved, []) (f, true) =
          (st.target, st.moved, [f]) := by
        simp [processFile]
      rw [hstep]
      exact ⟨(foldl_processFile_indep rel ts rest st.target st.moved [f] []).1,
        (foldl_processFile_indep rel ts rest st.target st.moved [f] []).2⟩
    have hh : ∀ d : ScratchDir, handle_downloads [d] tgt rel ts =
        processDir rel ts ⟨tgt, [], []⟩ d := fun d => rfl
    rw [hh, hh]
    exact key ⟨tgt, [], []⟩
  · rcases processDir_moved_shape rel ts dirs ⟨tgt, [], []⟩ p
        (by simpa [handle_downloads] using hp) with h1 | h2
    · exact absurd h1 (List.not_mem_nil p)
    · exact h2

/-- Witness for C6: the spec's `report.pdf` collision example, with a
concrete timestamp, yields the original plus a renamed copy, removes the
scratch directory, and returns the root-relative path of the copy. -/
theorem c6_download_reconciliation_witness :
    (handle_downloads [⟨[("report.pdf", false)], false⟩] ["report.pdf"]
        "default/task_ab" "20240101_000000").target =
      ["report.pdf"] ++ [timestampedName "report.pdf" "20240101_000000"] ∧
    timestampedName "report.pdf" "20240101_000000" ≠ "report.pdf" ∧
    (handle_downloads [⟨[("report.pdf", false)], false⟩] ["report.pdf"]
        "default/task_ab" "20240101_000000").remaining = [] ∧
    (handle_downloads [⟨[("report.pdf", false)], false⟩] ["report.pdf"]
        "default/task_ab" "20240101_000000").moved =
      ["default/task_ab" ++ "/" ++
        timestampedName "report.pdf" "20240101_000000"] := by
  have h := (c6_download_reconciliation).1 "report.pdf" ["report.pdf"]
    "default/task_ab" "20240101_000000" (by decide)
  exact ⟨h.1, h.2.2.1, h.2.2.2.1, h.2.2.2.2⟩

/-- A prefix of a list is still a prefix after appending on the right. -/
theorem startsWithL_append (p : List Char) :
    ∀ l m : List Char, startsWithL p l = true →
    startsWithL p (l ++ m) = true := by
  induction p with
  | nil => intro l m _; rfl
  | cons a as ih =>
    intro l m hp
    cases l with
    | nil => simp [startsWithL] at hp
    | cons b bs =>
      simp only [startsWithL, Bool.and_eq_true, decide_eq_true_eq] at hp
      simp only [List.cons_append, startsWithL, Bool.and_eq_true,
        decide_eq_true_eq]
      exact ⟨hp.1, ih bs m hp.2⟩

/-- A substring of a list is still a substring after appending on the
right. -/
theorem subListL_append_left (p : List Char) :
    ∀ l m : List Char, subListL p l = true → subListL p (l ++ m) = true := by
  intro l
  induction l with
  | nil =>
    intro m hp
    simp only [subListL, List.isEmpty_eq_true] at hp
    subst hp
    cases m with
    | nil => rfl
    | cons c cs => simp [subListL, startsWithL]
  | cons c cs ih =>
    intro m hp
    simp only [subListL, Bool.or_eq_true] at hp
    rcases hp with h1 | h2
    · rw [List.cons_append]
      have := startsWithL_append p (c :: cs) m h1
      rw [List.cons_append] at this
      simp only [subListL, Bool.or_eq_true]
      exact Or.inl this
    · simp only [List.cons_append, subListL, Bool.or_eq_true]
      exact Or.inr (ih m h2)

/-- Mapping a character function that fixes the needle preserves a prefix
match. -/
theorem startsWithL_map (f : Char → Char) (p : List Char) :
    ∀ l : List Char, p.map f = p → startsWithL p l = true →
    startsWithL p (l.map f) = true := by
  induction p with
  | nil => intro l _ _; rfl
  | cons a as ih =>
    intro l hfix hp
    cases l with
    | nil => simp [startsWithL] at hp
    | cons b bs =>
      simp only [startsWithL, Bool.and_eq_true, decide_eq_true_eq] at hp
      obtain ⟨hab, hrest⟩ := hp
      simp only [List.map_cons] at hfix
      have hfa : f a = a := (List.cons.inj hfix).1
      have hfas : as.map f = as := (List.cons.inj hfix).2
      subst hab
      simp only [List.map_cons, startsWithL, Bool.and_eq_true,
        decide_eq_true_eq]
      exact ⟨hfa.symm, ih bs hfas hrest⟩

/-- Mapping a character function that fixes the needle preserves a
substring match (used with `Char.toLower` for Python's lower-cased
containment checks). -/
theorem subListL_map (f : Char → Char) (p : List Char) :
    ∀ l : List Char, p.map f = p → subListL p l = true →
    subListL p (l.map f) = true := by
  intro l
  induction l with
  | nil => intro _ hp; exact hp
  | cons c cs ih =>
    intro hfix hp
    simp only [subListL, Bool.or_eq_true] at hp
    simp only [List.map_cons, subListL, Bool.or_eq_true]
    rcases hp with h1 | h2
    · have := startsWithL_map f p (c :: cs) hfix h1
      rw [List.map_cons] at this
      exact Or.inl this
    · exact Or.inr (ih hfix h2)

/-- A message containing the `rate_limit_exceeded` marker is classified as
a rate-limit error by `is_rate_limit_error`. -/
theorem is_rate_limit_error_of_marker (msg : String)
    (hmsg : subListL "rate_limit_exceeded".data msg.data = true) :
    is_rate_limit_error msg = true := by
  have hne : msg ≠ "" := by
    intro he
    subst he
    exact absurd hmsg (by decide)
  unfold is_rate_limit_error
  rw [if_neg hne, List.any_eq_true]
  refine ⟨"rate_limit_exceeded",
    List.mem_cons_of_mem _ (List.mem_cons_self _ _), ?_⟩
  show subListL "rate_limit_exceeded".data (lowerString msg).data = true
  have hdata : (lowerString msg).data = msg.data.map Char.toLower := rfl
  rw [hdata]
  exact subListL_map Char.toLower _ msg.data (by decide) hmsg

/-- Claim C7: an error message containing `rate_limit_exceeded` is detected
by `is_rate_limit_error`; under provider `openai` a history carrying it is
classified as a rate-limit error and the response error field carries the
OpenAI rate-limit guidance text (which begins with the rate-limit-specific
header); under any other provider the message is left unclassified but the
raw error text is still the response's error output
(result_processing.py lines 77-96, utils.py lines 38-88, browser_api.py
lines 194-213). -/
theorem c7_rate_limit_classification (msg : String)
    (hmsg : subListL "rate_limit_exceeded".data msg.data = true)
    (h : History) (req : TaskRequest) (gif : Option String) (r : BasicResult)
    (hE : h.errorsQ = .ok [some msg])
    (hb : extract_basic_results h req gif = .ok r) :
    is_rate_limit_error msg = true ∧
    (req.llm_provider = "openai" →
      r.openai_rate_limit = true ∧ r.errors = [msg] ∧
      (∀ (cost : CostData) (dbg : Option DebugData) (dl : List String)
          (conv : Option String),
        computeErrorField (assemble_final_result r cost dbg dl conv) =
          some (format_openai_error_message msg "rate_limit")) ∧
      subListL "OpenAI API rate limit reached".data
        (format_openai_error_message msg "rate_limit").data = true) ∧
    (req.llm_provider ≠ "openai" →
      r.openai_rate_limit = false ∧ r.openai_empty_json = false ∧
      r.errors = [msg] ∧
      (∀ (cost : CostData) (dbg : Option DebugData) (dl : List String)
          (conv : Option String),
        computeErrorField (assemble_final_result r cost dbg dl conv) =
          some msg)) := by
  have hne : msg ≠ "" := by
    intro he
    subst he
    exact absurd hmsg (by decide)
  have hrl := is_rate_limit_error_of_marker msg hmsg
  obtain ⟨⟨raw, hEr, herr⟩, hflag1, hflag2, hjv, hst⟩ :=
    extract_basic_results_ok_inv hb
  rw [hE] at hEr
  have hraw : [some msg] = raw := Except.ok.inj hEr
  subst hraw
  have hclean : cleanErrors [some msg] = [msg] := by
    simp [cleanErrors, hne]
  rw [hclean] at herr
  have hfmt : format_openai_error_message msg "rate_limit" =
      "OpenAI API rate limit reached. Your account exceeded the allowed requests." ++
        "\n\nSuggestions:\n" ++
        pyJoin "\n" (["Wait a few minutes and retry",
          "Upgrade the OpenAI plan for higher limits",
          "Switch to Gemini (no rate limits on free tier)"].map
            fun tip => "  - " ++ tip) ++
        "\n\nOriginal error: " ++ pyTake msg 200 := by
    unfold format_openai_error_message
    rw [if_neg (by decide : ¬("rate_limit" : String) = "empty_json"),
      if_pos (rfl : ("rate_limit" : String) = "rate_limit")]
    rw [if_pos hne]
  refine ⟨hrl, fun hop => ?_, fun hnop => ?_⟩
  · have hflag : r.openai_rate_limit = true := by
      rw [hflag2, herr]
      simp [classifyErrors, hop, hrl]
    refine ⟨hflag, herr, fun cost dbg dl conv => ?_, ?_⟩
    · simp [computeErrorField, assemble_final_result, herr, hflag, pyJoin]
    · rw [hfmt, String.data_append]
      exact subListL_append_left _ _ _ (by decide)
  · have hflag : r.openai_rate_limit = false := by
      rw [hflag2, herr]
      simp [classifyErrors, hnop]
    have hflagE : r.openai_empty_json = false := by
      rw [hflag1, herr]
      simp [classifyErrors, hnop]
    refine ⟨hflag, hflagE, herr, fun cost dbg dl conv => ?_⟩
    simp [computeErrorField, assemble_final_result, herr, hflag, hflagE,
      pyJoin]

/-- A concrete error message carrying the rate-limit marker. -/
def sampleRateLimitMsg : String := "Error: rate_limit_exceeded for org"

/-- A history whose only error is the concrete rate-limit message. -/
def sampleRateLimitHistory : History :=
  { errorsQ := .ok [some sampleRateLimitMsg] }

/-- Witness for C7: on the concrete message under provider `openai`, the
classifier fires and the response error is the rate-limit guidance. -/
theorem c7_rate_limit_classification_witness :
    is_rate_limit_error sampleRateLimitMsg = true ∧
    computeErrorField (assemble_final_result
        { final_result := none, is_done := false, is_successful := none,
          has_errors := false, urls := [], steps := 0, duration := 0,
          errors := [sampleRateLimitMsg], openai_empty_json := false,
          openai_rate_limit := true, judge_verdict := none,
          gif_path := none } ⟨none, none, none⟩ none [] none) =
      some (format_openai_error_message sampleRateLimitMsg "rate_limit") := by
  have h := c7_rate_limit_classification sampleRateLimitMsg (by decide)
    sampleRateLimitHistory { task := "t", llm_provider := "openai" } none
    { final_result := none, is_done := false, is_successful := none,
      has_errors := false, urls := [], steps := 0, duration := 0,
      errors := [sampleRateLimitMsg], openai_empty_json := false,
      openai_rate_limit := true, judge_verdict := none, gif_path := none }
    rfl rfl
  exact ⟨h.1, (h.2.1 rfl).2.2.1 ⟨none, none, none⟩ none [] none⟩

end BrowserAutomation
